import Mathlib

/-!
Verification of the appointment scheduling engine of the Optica Shalom
booking application (src/app.py).

The embedding models Python `date`/`datetime` values over the single
configured timezone (`TZ`, default America/Bogota, a fixed UTC-05:00 zone
with no DST).  Naive and aware datetimes are distinguished through an
optional UTC-offset field measured in minutes.  Ledger rows are records of
twelve string fields, exactly the sheet columns declared in `HEADERS`.
External collaborators (Google Calendar, Google Sheets, SMTP, the `holidays`
library) are modelled as oracle parameters; the effects the engine performs
against them are recorded in an explicit effect trace.
-/

/-- Python's `str.isspace` character class used by `str.strip`. -/
def isPySpace (c : Char) : Bool :=
  c = ' ' || c = '\t' || c = '\n' || c = '\r' || c = '\x0b' || c = '\x0c'

/-- Python `str.strip()`: removes leading and trailing whitespace. -/
def pyStrip (s : String) : String :=
  String.mk (((s.toList.dropWhile isPySpace).reverse.dropWhile isPySpace).reverse)

/-- Python slicing `s[a:b]` on character positions. -/
def pySlice (s : String) (a b : Nat) : String :=
  String.mk ((s.toList.drop a).take (b - a))

/-- Python slicing `s[:n]`. -/
def pyTakeChars (s : String) (n : Nat) : String :=
  String.mk (s.toList.take n)

/-- Zero-padded two-digit rendering, as `%02d`. -/
def pad2 (n : Nat) : String := if n < 10 then "0" ++ toString n else toString n

/-- Zero-padded four-digit rendering, as `%04d`. -/
def pad4 (n : Nat) : String :=
  if n < 10 then "000" ++ toString n
  else if n < 100 then "00" ++ toString n
  else if n < 1000 then "0" ++ toString n
  else toString n

/-- Zero-padded six-digit rendering, as `%06d` (microseconds). -/
def pad6 (n : Nat) : String :=
  if n < 10 then "00000" ++ toString n
  else if n < 100 then "0000" ++ toString n
  else if n < 1000 then "000" ++ toString n
  else if n < 10000 then "00" ++ toString n
  else if n < 100000 then "0" ++ toString n
  else toString n

/-- A Python `datetime.date`: a calendar date. -/
structure PyDate where
  year : Nat
  month : Nat
  day : Nat
deriving DecidableEq

/-- Gregorian leap-year test. -/
def isLeapYear (y : Nat) : Bool :=
  (y % 4 == 0 && y % 100 != 0) || y % 400 == 0

/-- Days in a Gregorian month. -/
def daysInMonth (y m : Nat) : Nat :=
  if m = 2 then (if isLeapYear y then 29 else 28)
  else if m = 4 ∨ m = 6 ∨ m = 9 ∨ m = 11 then 30
  else 31

/-- The calendar day after `d`. -/
def PyDate.nextDay (d : PyDate) : PyDate :=
  if d.day < daysInMonth d.year d.month then ⟨d.year, d.month, d.day + 1⟩
  else if d.month < 12 then ⟨d.year, d.month + 1, 1⟩
  else ⟨d.year + 1, 1, 1⟩

/-- The calendar day before `d`. -/
def PyDate.prevDay (d : PyDate) : PyDate :=
  if 1 < d.day then ⟨d.year, d.month, d.day - 1⟩
  else if 1 < d.month then ⟨d.year, d.month - 1, daysInMonth d.year (d.month - 1)⟩
  else ⟨d.year - 1, 12, 31⟩

/-- `d + timedelta(days=n)` for a nonnegative number of days. -/
def PyDate.addDays (d : PyDate) : Nat → PyDate
  | 0 => d
  | n + 1 => (d.addDays n).nextDay

/-- Backward day stepping, a month at a time, with a structural fuel that
bounds the number of month steps (each step consumes at least one day, so
a fuel of `n` always suffices). -/
def PyDate.subDaysGo : Nat → PyDate → Nat → PyDate
  | 0, d, _ => d
  | fuel + 1, d, n =>
      if n = 0 then d
      else if n < d.day then ⟨d.year, d.month, d.day - n⟩
      else
        let pm : PyDate :=
          if 1 < d.month then ⟨d.year, d.month - 1, daysInMonth d.year (d.month - 1)⟩
          else ⟨d.year - 1, 12, 31⟩
        PyDate.subDaysGo fuel pm (n - max 1 d.day)

/-- `d - timedelta(days=n)` for a nonnegative number of days
(semantically `prevDay` iterated `n` times on valid dates, stepping a
month at a time so that evaluation stays shallow). -/
def PyDate.subDays (d : PyDate) (n : Nat) : PyDate :=
  PyDate.subDaysGo n d n

/-- `d + timedelta(days=k)` for a possibly negative day count. -/
def PyDate.addDaysInt (d : PyDate) (k : Int) : PyDate :=
  if 0 ≤ k then d.addDays k.toNat else d.subDays (-k).toNat

/-- Python `date.weekday()`: Monday = 0 … Sunday = 6 (Sakamoto's method). -/
def PyDate.weekday (d : PyDate) : Nat :=
  let t := [0, 3, 2, 5, 0, 3, 5, 1, 4, 6, 2, 4]
  let y := if d.month < 3 then d.year - 1 else d.year
  let dowSunday0 := (y + y / 4 + y / 400 + t.getD (d.month - 1) 0 + d.day - y / 100) % 7
  (dowSunday0 + 6) % 7

/-- Python `date.isoformat()`. -/
def PyDate.isoformat (d : PyDate) : String :=
  pad4 d.year ++ "-" ++ pad2 d.month ++ "-" ++ pad2 d.day

/-- Python tuple comparison `a < b` on `(year, month, day)`. -/
def dateLt (a b : PyDate) : Bool :=
  a.year < b.year ||
    (a.year == b.year &&
      (a.month < b.month || (a.month == b.month && a.day < b.day)))

/-- A Python `datetime.datetime` in the model: wall-clock fields plus an
optional UTC offset in minutes (`none` = naive). -/
structure PyDateTime where
  date : PyDate
  hour : Nat
  minute : Nat
  second : Nat
  microsecond : Nat
  tzoff : Option Int
deriving DecidableEq

/-- The configured zone (`get_timezone`): America/Bogota, a fixed UTC-05:00
offset with no DST, modelled by its offset in minutes. -/
def tzOffsetMinutes : Int := -300

/-- Seconds elapsed since local midnight. -/
def PyDateTime.todSeconds (dt : PyDateTime) : Nat :=
  dt.hour * 3600 + dt.minute * 60 + dt.second

/-- Python `datetime.astimezone(tz)` for a fixed-offset target zone: shift
the wall clock by the offset difference, carrying into the date when the
time of day over- or underflows.  A naive value is given the target offset
unchanged (the source only ever converts aware values). -/
def astimezone (dt : PyDateTime) (target : Int) : PyDateTime :=
  let o := dt.tzoff.getD target
  let t : Int := (dt.todSeconds : Int) + (target - o) * 60
  let dayShift := t.ediv 86400
  let tod := (t.emod 86400).toNat
  { date := dt.date.addDaysInt dayShift
    hour := tod / 3600
    minute := tod % 3600 / 60
    second := tod % 60
    microsecond := dt.microsecond
    tzoff := some target }

/-- Lexicographic wall-clock comparison of two datetimes, Python's
comparison for two naive values. -/
def wallLt (a b : PyDateTime) : Bool :=
  dateLt a.date b.date ||
    (a.date == b.date &&
      (a.hour < b.hour ||
        (a.hour == b.hour &&
          (a.minute < b.minute ||
            (a.minute == b.minute &&
              (a.second < b.second ||
                (a.second == b.second && a.microsecond < b.microsecond)))))))

/-- Python `datetime` `<`: aware values compare by absolute time (both are
normalised to UTC wall clocks); naive values compare by wall clock.  The
source never compares naive with aware (Python would raise). -/
def pyLt (a b : PyDateTime) : Bool :=
  match a.tzoff, b.tzoff with
  | some _, some _ => wallLt (astimezone a 0) (astimezone b 0)
  | _, _ => wallLt a b

/-- Python `datetime` `<=` (a total order on comparable values). -/
def pyLe (a b : PyDateTime) : Bool := !(pyLt b a)

/-- Python `datetime.isoformat()`: date, `T`, time, optional fractional
part when microseconds are nonzero, and the `±HH:MM` offset when aware. -/
def PyDateTime.isoformat (dt : PyDateTime) : String :=
  dt.date.isoformat ++ "T" ++ pad2 dt.hour ++ ":" ++ pad2 dt.minute ++ ":" ++ pad2 dt.second
    ++ (if dt.microsecond ≠ 0 then "." ++ pad6 dt.microsecond else "")
    ++ (match dt.tzoff with
        | none => ""
        | some o =>
            (if o < 0 then "-" else "+") ++ pad2 (o.natAbs / 60) ++ ":" ++ pad2 (o.natAbs % 60))

/-- `dt.replace(second=0, microsecond=0)`: truncation to minute precision. -/
def PyDateTime.truncateMinute (dt : PyDateTime) : PyDateTime :=
  { dt with second := 0, microsecond := 0 }

/-- Numeric value of a decimal digit character. -/
def digitVal (c : Char) : Nat := c.toNat - '0'.toNat

/-- Read exactly two decimal digits. -/
def read2 : List Char → Option (Nat × List Char)
  | a :: b :: rest =>
      if a.isDigit && b.isDigit then some (10 * digitVal a + digitVal b, rest) else none
  | _ => none

/-- Read exactly four decimal digits. -/
def read4 : List Char → Option (Nat × List Char)
  | a :: b :: c :: d :: rest =>
      if a.isDigit && b.isDigit && c.isDigit && d.isDigit then
        some (1000 * digitVal a + 100 * digitVal b + 10 * digitVal c + digitVal d, rest)
      else none
  | _ => none

/-- Read a calendar date `YYYY-MM-DD`, validating month and day ranges as
`datetime.fromisoformat` does. -/
def readDateCs (cs : List Char) : Option (PyDate × List Char) := do
  let (y, r1) ← read4 cs
  match r1 with
  | '-' :: r2 => do
      let (mo, r3) ← read2 r2
      match r3 with
      | '-' :: r4 => do
          let (da, r5) ← read2 r4
          if 1 ≤ mo && mo ≤ 12 && 1 ≤ da && da ≤ daysInMonth y mo then
            some (⟨y, mo, da⟩, r5)
          else none
      | _ => none
  | _ => none

/-- Read a fractional-seconds field: one or more digits, of which the first
six (right-padded with zeros) give the microsecond value. -/
def readMicro (cs : List Char) : Option (Nat × List Char) :=
  let ds := cs.takeWhile Char.isDigit
  if ds.isEmpty then none
  else
    let six := ds.take 6 ++ List.replicate (6 - (ds.take 6).length) '0'
    some (six.foldl (fun a c => 10 * a + digitVal c) 0, cs.drop ds.length)

/-- Read a time `HH[:MM[:SS[.ffffff]]]` (comma also accepted before the
fraction, as in `datetime.fromisoformat`). -/
def readTime (cs : List Char) : Option (Nat × Nat × Nat × Nat × List Char) := do
  let (h, r1) ← read2 cs
  match r1 with
  | ':' :: r2 => do
      let (m, r3) ← read2 r2
      match r3 with
      | ':' :: r4 => do
          let (s, r5) ← read2 r4
          match r5 with
          | '.' :: r6 => do
              let (mic, r7) ← readMicro r6
              pure (h, m, s, mic, r7)
          | ',' :: r6 => do
              let (mic, r7) ← readMicro r6
              pure (h, m, s, mic, r7)
          | _ => pure (h, m, s, 0, r5)
      | _ => pure (h, m, 0, 0, r3)
  | _ => pure (h, 0, 0, 0, r1)

/-- Read a `±HH:MM` offset magnitude in minutes. -/
def readOffsetHM (cs : List Char) : Option Int := do
  let (oh, r1) ← read2 cs
  match r1 with
  | ':' :: r2 => do
      let (om, r3) ← read2 r2
      if r3.isEmpty && oh < 24 && om < 60 then pure ((oh * 60 + om : Nat) : Int) else none
  | _ => none

/-- Read the optional trailing UTC-offset designator. -/
def readOffset : List Char → Option (Option Int)
  | [] => some none
  | ['Z'] => some (some 0)
  | ['z'] => some (some 0)
  | '+' :: rest => (readOffsetHM rest).map (fun o => some o)
  | '-' :: rest => (readOffsetHM rest).map (fun o => some (-o))
  | _ => none

/-- Model of Python's `datetime.fromisoformat` on the ISO-8601 profile the
application reads and writes: `YYYY-MM-DD`, optionally followed by a
one-character separator, a time `HH[:MM[:SS[.ffffff]]]`, and an optional
offset (`Z` or `±HH:MM`).  Any other input yields `none` (the `ValueError`
case in Python). -/
def fromisoformat (value : String) : Option PyDateTime :=
  match readDateCs value.toList with
  | none => none
  | some (d, []) => some ⟨d, 0, 0, 0, 0, none⟩
  | some (d, _sep :: tcs) =>
      match readTime tcs with
      | none => none
      | some (h, m, s, mic, r) =>
          match readOffset r with
          | none => none
          | some off =>
              if h ≤ 23 && m ≤ 59 && s ≤ 59 then some ⟨d, h, m, s, mic, off⟩ else none

/-- `parse_iso_datetime` (src/app.py lines 134-143): total parser for stored
timestamps.  Empty and unparsable values yield `none`; a naive result is
assigned the configured zone; the result is converted to the configured
zone. -/
def parse_iso_datetime (value : String) : Option PyDateTime :=
  if value = "" then none
  else
    match fromisoformat value with
    | none => none
    | some dtVal =>
        let dtVal := if dtVal.tzoff = none then { dtVal with tzoff := some tzOffsetMinutes } else dtVal
        some (astimezone dtVal tzOffsetMinutes)

/-- A ledger row: the twelve sheet columns of `HEADERS`, all stored as
strings (`fetch_appointments` reads every cell as a string, defaulting
missing trailing cells to the empty string). -/
structure Record where
  id : String
  name : String
  email : String
  phone : String
  document : String
  birthdate : String
  start_time_iso : String
  local_display : String
  status : String
  calendar_event_id : String
  created_at_iso : String
  notes : String
deriving DecidableEq

/-- The guard `if ignore_id and item.get("id") == ignore_id` from the
source: the skip applies only when `ignore_id` is truthy, i.e. present and
non-empty. -/
def ignoreMatches (ignore_id : Option String) (rid : String) : Bool :=
  match ignore_id with
  | some s => !(s == "") && rid == s
  | none => false

/-- `has_conflict` (src/app.py lines 511-521): scans the snapshot for an
active, non-ignored row whose stored start equals the target exactly. -/
def has_conflict (existing : List Record) (target_iso : String) (ignore_id : Option String) : Bool :=
  match existing with
  | [] => false
  | item :: rest =>
      if item.status ≠ "active" then has_conflict rest target_iso ignore_id
      else if ignoreMatches ignore_id item.id then has_conflict rest target_iso ignore_id
      else if item.start_time_iso == target_iso then true
      else has_conflict rest target_iso ignore_id

/-- `SLOT_MINUTES` from the source. -/
def SLOT_MINUTES : Nat := 15

/-- `datetime.combine(d, time(hour=h, minute=m), tzinfo=tz)`. -/
def slotDt (d : PyDate) (h m : Nat) : PyDateTime :=
  ⟨d, h, m, 0, 0, some tzOffsetMinutes⟩

/-- `dt + timedelta(minutes=k)`, carrying into the date on overflow. -/
def addSlotMinutes (dt : PyDateTime) (k : Nat) : PyDateTime :=
  let total := dt.hour * 60 + dt.minute + k
  if total < 1440 then { dt with hour := total / 60, minute := total % 60 }
  else
    { dt with
      date := dt.date.addDays (total / 1440)
      hour := total % 1440 / 60
      minute := total % 1440 % 60 }

/-- The `while current < end: slots.append(current); current += slot` loop
from `generate_slots_for_date`.  The fuel argument only bounds the number
of iterations; 1440 exceeds the slot count of any day under the configured
grid. -/
def slotLoop : Nat → PyDateTime → PyDateTime → List PyDateTime
  | 0, _, _ => []
  | fuel + 1, cur, endDt =>
      if pyLt cur endDt then cur :: slotLoop fuel (addSlotMinutes cur SLOT_MINUTES) endDt
      else []

/-- `generate_slots_for_date` (src/app.py lines 146-172): the 08:00-12:00
and 14:00-18:00 segments at 15-minute granularity. -/
def generate_slots_for_date (d : PyDate) : List PyDateTime :=
  slotLoop 1440 (slotDt d 8 0) (slotDt d 12 0) ++ slotLoop 1440 (slotDt d 14 0) (slotDt d 18 0)

/-- Python `set.add` on the model's list-backed string set. -/
def setAdd (l : List String) (x : String) : List String :=
  if x ∈ l then l else l ++ [x]

/-- The per-row body of the `build_conflict_set` loop. -/
def bcsStep (selected_date : PyDate) (ignore_id : Option String) (acc : List String)
    (item : Record) : List String :=
  if item.status ≠ "active" then acc
  else if ignoreMatches ignore_id item.id then acc
  else
    let raw_iso := item.start_time_iso
    let dt_val := parse_iso_datetime raw_iso
    let item_date : Option PyDate :=
      match dt_val with
      | some dtv => some dtv.date
      | none =>
          if raw_iso.length ≥ 10 then (fromisoformat (pyTakeChars raw_iso 10)).map (fun x => x.date)
          else none
    match item_date with
    | none => acc
    | some idate =>
        if idate = selected_date then
          let stamp :=
            match dt_val with
            | some dtv => dtv.truncateMinute.isoformat
            | none => selected_date.isoformat ++ "T" ++ pySlice raw_iso 11 16
          setAdd acc stamp
        else acc

/-- `build_conflict_set` (src/app.py lines 175-201). -/
def build_conflict_set (existing : List Record) (selected_date : PyDate)
    (ignore_id : Option String) : List String :=
  existing.foldl (bcsStep selected_date ignore_id) []

/-- `day_is_full` (src/app.py lines 204-209). -/
def day_is_full (existing : List Record) (selected_date : PyDate)
    (ignore_id : Option String) : Bool :=
  (generate_slots_for_date selected_date).length ≤ (build_conflict_set existing selected_date ignore_id).length

/-- `is_within_business_hours` (src/app.py lines 232-240). -/
def is_within_business_hours (dt : PyDateTime) : Bool :=
  let in_morning := decide (8 ≤ dt.hour ∧ dt.hour < 12)
  let in_afternoon := decide (14 ≤ dt.hour ∧ dt.hour < 18)
  let at_exact_end := decide (dt.hour = 18 ∧ dt.minute = 0 ∧ dt.second = 0)
  in_morning || in_afternoon || at_exact_end

/-- `is_valid_email` (src/app.py lines 117-121), modelling
`re.match` of the anchored pattern from the source on the stripped value:
one or more characters that are neither `@` nor whitespace, `@`, one or
more such characters, `.`, one or more such characters. -/
def is_valid_email (value : String) : Bool :=
  if value = "" then false
  else
    let cs := (pyStrip value).toList
    let isOk : Char → Bool := fun c => !(c = '@' || isPySpace c)
    match cs.findIdx? (fun c => c = '@') with
    | none => false
    | some i =>
        let a := cs.take i
        let b := cs.drop (i + 1)
        !a.isEmpty && a.all isOk && !b.isEmpty && b.all isOk &&
          decide ('.' ∈ (b.drop 1).dropLast)

/-- `is_valid_phone_co` (src/app.py lines 124-127): full match of `3`
followed by nine digits on the stripped value. -/
def is_valid_phone_co (value : String) : Bool :=
  if value = "" then false
  else
    match (pyStrip value).toList with
    | c :: rest => c = '3' && rest.length = 9 && rest.all Char.isDigit
    | [] => false

/-- Twelve-hour clock value for `%I`. -/
def hour12 (h : Nat) : Nat := if h % 12 = 0 then 12 else h % 12

/-- `%p` in the C locale. -/
def ampm (h : Nat) : String := if h < 12 then "AM" else "PM"

/-- `format_local` (src/app.py lines 507-508): `%Y-%m-%d %I:%M %p (%Z)`;
`%Z` for the configured fixed-offset zone renders as `-05`. -/
def format_local (dt : PyDateTime) : String :=
  dt.date.isoformat ++ " " ++ pad2 (hour12 dt.hour) ++ ":" ++ pad2 dt.minute ++ " "
    ++ ampm dt.hour ++ " (-05)"

/-- `email_subject` (src/app.py lines 419-420). -/
def email_subject : String := "Shalom Agendamiento de Citas"

/-- `email_body_created` (src/app.py lines 423-430). -/
def email_body_created (name appointment_id : String) (start_dt : PyDateTime) : String :=
  "Hola " ++ (if name ≠ "" then name else "usuario") ++ ",\n\n"
    ++ "Tu cita con ID " ++ appointment_id ++ " ha sido creada exitosamente.\n\n"
    ++ "Fecha: " ++ start_dt.date.isoformat ++ "\n"
    ++ "Hora: " ++ pad2 (hour12 start_dt.hour) ++ ":" ++ pad2 start_dt.minute ++ " "
    ++ ampm start_dt.hour ++ " (-05)\n\n"
    ++ "Gracias por cuidar tu salud visual con nosotros."

/-- One entry of the list built by `date_choice_list`. -/
structure DayChoice where
  date : PyDate
  blocked : Bool
  label : String
  reason : String
deriving DecidableEq

/-- A default `DayChoice` used with `List.getD` in statements. -/
def dfltChoice : DayChoice := ⟨⟨0, 0, 0⟩, false, "", ""⟩

/-- The body of the `for i in range(days + 1)` loop of `date_choice_list`.
The holiday set built by `build_holiday_range_set` (the external
`holidays` library) is an oracle parameter. -/
def mkDayChoice (holidaySet : PyDate → Bool) (existing : List Record)
    (ignore_id : Option String) (start : PyDate) (i : Nat) : DayChoice :=
  let day := start.addDays i
  let is_sunday := day.weekday == 6
  let is_holiday := holidaySet day
  let is_full := day_is_full existing day ignore_id
  let blocked := is_sunday || is_holiday || is_full
  let reason :=
    if is_sunday then "domingo"
    else if is_holiday then "festivo"
    else if is_full then "agenda completa"
    else ""
  let label :=
    if blocked then "🔴 " ++ day.isoformat ++ " (" ++ reason ++ ")"
    else "🟢 " ++ day.isoformat
  ⟨day, blocked, label, reason⟩

/-- The `for idx, choice in enumerate(choices)` selection loop of
`date_choice_list`: `default_index` starts at 0 and is set to the first
non-blocked index; it stays 0 when every day is blocked. -/
def defaultIndexLoop : List DayChoice → Nat → Nat
  | [], _ => 0
  | c :: rest, idx => if !c.blocked then idx else defaultIndexLoop rest (idx + 1)

/-- `date_choice_list` (src/app.py lines 75-110). -/
def date_choice_list (holidaySet : PyDate → Bool) (start : PyDate) (existing : List Record)
    (days : Nat) (ignore_id : Option String) : List DayChoice × Nat :=
  let choices := (List.range (days + 1)).map (mkDayChoice holidaySet existing ignore_id start)
  (choices, defaultIndexLoop choices 0)

/-- Outcome of the direct `SMTP_SSL` attempt inside `send_email`. -/
inductive SmtpR
  | ok
  | eof
  | other
deriving DecidableEq

/-- Control-flow model of `send_email` (src/app.py lines 382-416): `true`
when the call returns normally (message sent, or configuration/recipient
missing, or a non-EOF error swallowed by the catch-all handler); `false`
when an exception escapes — which happens exactly when the direct SSL
attempt fails with `ssl.SSLEOFError` and the STARTTLS fallback run inside
that handler then fails, since the later catch-all clause of the same
`try` does not cover exceptions raised inside the first handler. -/
def send_email_runs (gmailCfg : Bool) (to_email : String) (direct : SmtpR)
    (fallbackOk : Bool) : Bool :=
  if !gmailCfg then true
  else if to_email = "" then true
  else
    match direct with
    | .ok => true
    | .other => true
    | .eof => fallbackOk

/-- A port call performed by a lifecycle operation, in execution order. -/
inductive Effect where
  | calendarCreate (summary : String) (start : PyDateTime) (durationMinutes : Nat) (attendee : String)
  | ledgerAppend (row : Record)
  | emailSend (recipient subject body : String)
  | calendarUpdate (eventId : String) (start : PyDateTime) (durationMinutes : Nat) (attendee : String)
  | calendarDelete (eventId : String)
  | ledgerUpdate (rowNumber : Nat) (row : Record)
deriving DecidableEq

/-- Result reported to the user by a lifecycle operation. -/
inductive BookOutcome
  | success (appointmentId : String)
  | failure (msg : String)
deriving DecidableEq

/-- The post-submit part of `handle_booking` (src/app.py lines 601-690):
validation chain, conflict gate, then the effect sequence of the `try`
block.  Oracle parameters stand for the external collaborators: `now` and
`now2` are the two `now_local()` calls, `svcOk` the service acquisition,
`newId` the generated UUID, `calResult` the calendar-event creation
(`none` = raised), `appendOk` the sheet append, and the SMTP parameters
feed `send_email_runs`. -/
def handle_booking_submit (existing : List Record) (name email phone document : String)
    (birthdate : Option PyDate) (today : PyDate) (selectedSlot : Option PyDateTime)
    (now now2 : PyDateTime) (svcOk : Bool) (newId : String) (calResult : Option String)
    (appendOk : Bool) (gmailCfg : Bool) (smtpDirect : SmtpR) (smtpFallbackOk : Bool) :
    List Effect × BookOutcome :=
  let min_birthdate : PyDate := ⟨1910, 1, 1⟩
  let max_birthdate : PyDate := today.subDays (7 * 365)
  if pyStrip name = "" then ([], .failure "El nombre es obligatorio.")
  else if pyStrip email = "" then ([], .failure "El email es obligatorio.")
  else if !is_valid_email email then ([], .failure "Ingresa un email válido.")
  else if pyStrip phone = "" then ([], .failure "El teléfono es obligatorio.")
  else if !is_valid_phone_co phone then
    ([], .failure "El teléfono debe iniciar en 3 y tener 10 dígitos (Colombia).")
  else if document = "" then ([], .failure "La cédula es obligatoria.")
  else
    match birthdate with
    | none => ([], .failure "La fecha de nacimiento es obligatoria.")
    | some bd =>
        if dateLt bd min_birthdate then
          ([], .failure "La fecha de nacimiento no puede ser anterior a 1910.")
        else if dateLt max_birthdate bd then
          ([], .failure "Solo se permiten usuarios de 7 años o más.")
        else
          match selectedSlot with
          | none => ([], .failure "No hay horarios disponibles para esta hora.")
          | some start_dt =>
              if pyLt start_dt now then ([], .failure "No puedes agendar en el pasado.")
              else if !is_within_business_hours start_dt then
                ([], .failure "Fuera del horario de atención (8 am - 6 pm).")
              else
                let start_iso := start_dt.isoformat
                if has_conflict existing start_iso none then
                  ([], .failure "Ya existe una cita en ese horario.")
                else if !svcOk then ([], .failure "Error al agendar: servicios no disponibles")
                else
                  let summary := if name ≠ "" then "Cita con " ++ name else "Cita"
                  let calEff := Effect.calendarCreate summary start_dt 30 email
                  match calResult with
                  | none => ([calEff], .failure "Error al agendar: calendario")
                  | some event_id =>
                      let created_at := now2.isoformat
                      let row : Record :=
                        ⟨newId, name, email, phone, document, bd.isoformat, start_iso,
                          format_local start_dt, "active", event_id, created_at, ""⟩
                      let appendEff := Effect.ledgerAppend row
                      if !appendOk then
                        ([calEff, appendEff], .failure "Error al agendar: hoja de cálculo")
                      else
                        let emailEff :=
                          Effect.emailSend email email_subject (email_body_created name newId start_dt)
                        if send_email_runs gmailCfg email smtpDirect smtpFallbackOk then
                          ([calEff, appendEff, emailEff], .success newId)
                        else
                          ([calEff, appendEff, emailEff], .failure "Error al agendar: correo")

/-- Application of one recorded effect to the in-memory ledger snapshot:
`append` adds a row at the end; `updateAt` overwrites the row addressed by
its sheet row number (data starts at sheet row 2). -/
def applyEffect (ledger : List Record) : Effect → List Record
  | .ledgerAppend row => ledger ++ [row]
  | .ledgerUpdate rowNumber row => ledger.set (rowNumber - 2) row
  | _ => ledger

/-- Application of a trace of effects to the ledger snapshot. -/
def applyEffects (ledger : List Record) (effs : List Effect) : List Record :=
  effs.foldl applyEffect ledger

/-- No two active rows share the same stored start value. -/
def noTwoActiveStart : List Record → Bool
  | [] => true
  | r :: rest =>
      (!(r.status == "active") ||
        rest.all (fun x => !(x.status == "active" && x.start_time_iso == r.start_time_iso))) &&
      noTwoActiveStart rest

/-- The overwritten row built by `handle_update` (src/app.py lines
787-800): contact fields and creation data are copied from the target,
start and display text are replaced, status stays active, and the notes
cell takes the caller's text when non-empty (Python `notes or
target.get("notes", "")`). -/
def reschedule_row (target : Record) (start_dt : PyDateTime) (notes : String) : Record :=
  let event_id := target.calendar_event_id
  { id := target.id
    name := target.name
    email := target.email
    phone := target.phone
    document := target.document
    birthdate := target.birthdate
    start_time_iso := start_dt.isoformat
    local_display := format_local start_dt
    status := "active"
    calendar_event_id := event_id
    created_at_iso := target.created_at_iso
    notes := if notes ≠ "" then notes else target.notes }

/-- The overwritten row built by `handle_cancel` (src/app.py lines
833-846): only the status cell (now `canceled`) and the notes cell (the
supplied reason) change. -/
def cancel_row (target : Record) (reason : String) : Record :=
  let event_id := target.calendar_event_id
  { id := target.id
    name := target.name
    email := target.email
    phone := target.phone
    document := target.document
    birthdate := target.birthdate
    start_time_iso := target.start_time_iso
    local_display := target.local_display
    status := "canceled"
    calendar_event_id := event_id
    created_at_iso := target.created_at_iso
    notes := reason }

/-- Microseconds elapsed since local midnight, the spec-side notion of a
sub-day instant used to phrase segment membership. -/
def todMicroOfDay (dt : PyDateTime) : Nat :=
  (dt.hour * 3600 + dt.minute * 60 + dt.second) * 1000000 + dt.microsecond

/-- Spec-side description of one business-hour segment of the slot grid:
the instants `start, start + g, start + 2g, …` strictly below the segment
end, with minutes-of-day arguments. -/
def specSegmentSlots (d : PyDate) (startMin endMin g : Nat) : List PyDateTime :=
  (List.range ((endMin - startMin + (g - 1)) / g)).map
    (fun k => slotDt d ((startMin + g * k) / 60) ((startMin + g * k) % 60))

/-- Spec-side description of the dual path of `build_conflict_set`: a row
contributes the stamp `s` either because its stored start parses and lands
on the selected date (minute-truncated rendering), or because parsing
fails while the first ten characters parse as exactly the selected date
(best-effort reconstruction from the raw `HH:MM` substring). -/
def dualPathStamp (selected_date : PyDate) (r : Record) (s : String) : Prop :=
  (∃ dtv, parse_iso_datetime r.start_time_iso = some dtv ∧ dtv.date = selected_date ∧
    s = dtv.truncateMinute.isoformat) ∨
  (parse_iso_datetime r.start_time_iso = none ∧ r.start_time_iso.length ≥ 10 ∧
    (∃ pd, fromisoformat (pyTakeChars r.start_time_iso 10) = some pd ∧ pd.date = selected_date) ∧
    s = selected_date.isoformat ++ "T" ++ pySlice r.start_time_iso 11 16)

/-- A concrete clock instant used by the concrete scenarios below. -/
def exNow : PyDateTime := ⟨⟨2026, 10, 12⟩, 8, 0, 0, 0, some (-300)⟩

/-- A concrete requested slot one day after `exNow`. -/
def exSlot : PyDateTime := ⟨⟨2026, 10, 13⟩, 9, 0, 0, 0, some (-300)⟩

/-- The calendar date of `exNow`. -/
def exToday : PyDate := ⟨2026, 10, 12⟩

/-- An active row at 10:00 on the day of `exSlot`, with a parametric id. -/
def dupRec (i : String) : Record :=
  ⟨i, "x", "", "", "", "", "2026-10-13T10:00:00-05:00", "", "active", "", "", ""⟩

/-- A ledger snapshot that already violates uniqueness of active starts. -/
def exDupLedger : List Record := [dupRec "a", dupRec "b"]

/-- An active row whose id is the empty string. -/
def emptyIdRec : Record :=
  ⟨"", "x", "", "", "", "", "2024-06-03T09:00:00-05:00", "", "active", "", "", ""⟩

/-- An active row with a malformed stored start (seconds field 77) whose
date prefix is valid. -/
def malformedRec : Record :=
  ⟨"a", "x", "", "", "", "", "2024-06-03T09:00:77-05:00", "", "active", "", "", ""⟩

/-- An active, well-formed row used by witnesses. -/
def witnessRec : Record :=
  ⟨"w1", "Ana", "ana@mail.co", "3001234567", "cc1", "1990-01-01",
    "2024-06-03T09:00:00-05:00", "2024-06-03 09:00 AM (-05)", "active", "ev9",
    "2024-06-01T10:00:00-05:00", "nota"⟩

/-- `ignoreMatches` is false exactly when no non-empty `ignore_id` equals
the row id (Python truthiness: an empty `ignore_id` never triggers the
skip). -/
theorem ignoreMatches_eq_false_iff (ig : Option String) (rid : String) :
    ignoreMatches ig rid = false ↔ ∀ s, ig = some s → s ≠ "" → rid ≠ s := by
  cases ig with
  | none => simp [ignoreMatches]
  | some s =>
      constructor
      · intro h s' hs' hne he
        cases hs'
        rw [he] at h
        simp [ignoreMatches, hne] at h
      · intro h
        by_cases hse : s = ""
        · simp [ignoreMatches, hse]
        · have hr := h s rfl hse
          simp [ignoreMatches, hse, hr]

/-- Scan lemma for `has_conflict`: it reports a conflict exactly when some
row of the snapshot is active, not skipped, and has the exact target as
its stored start. -/
theorem has_conflict_eq_true_iff (existing : List Record) (t : String) (ig : Option String) :
    has_conflict existing t ig = true ↔
      ∃ r ∈ existing, r.status = "active" ∧ ignoreMatches ig r.id = false ∧
        r.start_time_iso = t := by
  induction existing with
  | nil => simp [has_conflict]
  | cons a l ih =>
      simp only [has_conflict]
      split_ifs with h1 h2 h3
      · rw [ih]
        constructor
        · rintro ⟨r, hr, h⟩
          exact ⟨r, List.mem_cons_of_mem _ hr, h⟩
        · rintro ⟨r, hr, h⟩
          rcases List.mem_cons.mp hr with rfl | hr'
          · exact absurd h.1 h1
          · exact ⟨r, hr', h⟩
      · rw [ih]
        constructor
        · rintro ⟨r, hr, h⟩
          exact ⟨r, List.mem_cons_of_mem _ hr, h⟩
        · rintro ⟨r, hr, h⟩
          rcases List.mem_cons.mp hr with rfl | hr'
          · rw [h2] at h
            exact Bool.noConfusion h.2.1
          · exact ⟨r, hr', h⟩
      · have h1' : a.status = "active" := not_not.mp h1
        have h2' : ignoreMatches ig a.id = false := by
          revert h2; cases ignoreMatches ig a.id <;> simp
        have h3' : a.start_time_iso = t := beq_iff_eq.mp h3
        exact iff_of_true rfl ⟨a, List.mem_cons_self a l, h1', h2', h3'⟩
      · rw [ih]
        constructor
        · rintro ⟨r, hr, h⟩
          exact ⟨r, List.mem_cons_of_mem _ hr, h⟩
        · rintro ⟨r, hr, h⟩
          rcases List.mem_cons.mp hr with rfl | hr'
          · exact absurd (beq_iff_eq.mpr h.2.2) h3
          · exact ⟨r, hr', h⟩

/-- C2 (corrected): `hasConflict` is true iff some record of the snapshot
is active, not excluded by a *non-empty* `ignoreId`, and stores exactly
the target value (no truncation, no fallback).  Canceled rows and the
(non-empty) `ignoreId` row are ignored, so rescheduling an appointment to
its own slot is not a self-conflict; an empty `ignoreId`, however, is
falsy in the source and disables the skip. -/
theorem hasConflict_exact_match (existing : List Record) (t : String) (ig : Option String) :
    has_conflict existing t ig = true ↔
      ∃ r ∈ existing, r.status = "active" ∧
        (∀ s, ig = some s → s ≠ "" → r.id ≠ s) ∧ r.start_time_iso = t := by
  rw [has_conflict_eq_true_iff]
  constructor
  · rintro ⟨r, hr, hs, hig, hst⟩
    exact ⟨r, hr, hs, (ignoreMatches_eq_false_iff ig r.id).mp hig, hst⟩
  · rintro ⟨r, hr, hs, hig, hst⟩
    exact ⟨r, hr, hs, (ignoreMatches_eq_false_iff ig r.id).mpr hig, hst⟩

/-- Witness for C2: a concrete snapshot where the characterization applies;
the record is active, its id differs from the non-empty `ignoreId`, and
its stored start equals the target, so a conflict is reported. -/
theorem hasConflict_exact_match_witness :
    has_conflict [witnessRec] "2024-06-03T09:00:00-05:00" (some "other") = true :=
  (hasConflict_exact_match [witnessRec] "2024-06-03T09:00:00-05:00" (some "other")).mpr
    ⟨witnessRec, List.mem_singleton_self witnessRec, rfl,
      fun s hs _ => by cases hs; decide, rfl⟩

/-- Counterexample for C2 as frozen: with `ignoreId` the empty string, the
source does not skip the row whose id is empty (Python truthiness), so
`has_conflict` reports a conflict even though no record has an id
different from `ignoreId`. -/
theorem hasConflict_empty_ignore_cex :
    has_conflict [emptyIdRec] "2024-06-03T09:00:00-05:00" (some "") = true ∧
      emptyIdRec.status = "active" ∧ emptyIdRec.id = "" ∧
      emptyIdRec.start_time_iso = "2024-06-03T09:00:00-05:00" := by
  decide

/-- C5 (confirmed): the reschedule overwrite preserves the id, the contact
fields, the creation timestamp and the calendar event reference, replaces
only the start and its display rendering, keeps the status active, and
takes the caller's notes only when non-empty; the cancel overwrite changes
only the status (to canceled) and the notes (to the reason), leaving every
other field — including the calendar event reference — unchanged. -/
theorem reschedule_cancel_frame (target : Record) (h : target.status = "active")
    (start_dt : PyDateTime) (notes reason : String) :
    ((reschedule_row target start_dt notes).id = target.id ∧
     (reschedule_row target start_dt notes).name = target.name ∧
     (reschedule_row target start_dt notes).email = target.email ∧
     (reschedule_row target start_dt notes).phone = target.phone ∧
     (reschedule_row target start_dt notes).document = target.document ∧
     (reschedule_row target start_dt notes).birthdate = target.birthdate ∧
     (reschedule_row target start_dt notes).created_at_iso = target.created_at_iso ∧
     (reschedule_row target start_dt notes).calendar_event_id = target.calendar_event_id ∧
     (reschedule_row target start_dt notes).status = target.status ∧
     (reschedule_row target start_dt notes).start_time_iso = start_dt.isoformat ∧
     (reschedule_row target start_dt notes).local_display = format_local start_dt ∧
     (reschedule_row target start_dt notes).notes
        = (if notes ≠ "" then notes else target.notes)) ∧
    ((cancel_row target reason).id = target.id ∧
     (cancel_row target reason).name = target.name ∧
     (cancel_row target reason).email = target.email ∧
     (cancel_row target reason).phone = target.phone ∧
     (cancel_row target reason).document = target.document ∧
     (cancel_row target reason).birthdate = target.birthdate ∧
     (cancel_row target reason).start_time_iso = target.start_time_iso ∧
     (cancel_row target reason).local_display = target.local_display ∧
     (cancel_row target reason).created_at_iso = target.created_at_iso ∧
     (cancel_row target reason).calendar_event_id = target.calendar_event_id ∧
     (cancel_row target reason).status = "canceled" ∧
     (cancel_row target reason).notes = reason) := by
  simp [reschedule_row, cancel_row, h]

/-- Witness for C5 at a concrete active record, slot and notes. -/
theorem reschedule_cancel_frame_witness :
    (reschedule_row witnessRec exSlot "").notes = "nota" ∧
      (cancel_row witnessRec "viaje").status = "canceled" := by
  obtain ⟨hre, hca⟩ := reschedule_cancel_frame witnessRec rfl exSlot "" "viaje"
  refine ⟨?_, hca.2.2.2.2.2.2.2.2.2.2.1⟩
  rw [hre.2.2.2.2.2.2.2.2.2.2.2]
  decide

/-- C9 (corrected): for field-bounded instants, the business-hours test
accepts exactly the instants inside one of the half-open segments
08:00-12:00 and 14:00-18:00, plus every instant of the first second of
18:00:00 — i.e. hour 18, minute 0, second 0 with *any* microsecond — not
only the exact end boundary. -/
theorem business_hours_membership (dt : PyDateTime)
    (hm : dt.minute < 60) (hs : dt.second < 60) (hmic : dt.microsecond < 1000000) :
    is_within_business_hours dt = true ↔
      ((28800000000 ≤ todMicroOfDay dt ∧ todMicroOfDay dt < 43200000000) ∨
       (50400000000 ≤ todMicroOfDay dt ∧ todMicroOfDay dt < 64800000000) ∨
       (64800000000 ≤ todMicroOfDay dt ∧ todMicroOfDay dt < 64801000000)) := by
  simp only [is_within_business_hours, todMicroOfDay, Bool.or_eq_true, decide_eq_true_eq]
  omega

/-- Witness for C9: 09:00:00 is accepted and lies inside the morning
segment. -/
theorem business_hours_membership_witness :
    is_within_business_hours ⟨⟨2024, 6, 3⟩, 9, 0, 0, 0, some (-300)⟩ = true :=
  (business_hours_membership ⟨⟨2024, 6, 3⟩, 9, 0, 0, 0, some (-300)⟩
    (by decide) (by decide) (by decide)).mpr (Or.inl (by decide))

/-- Counterexample for C9 as frozen: 18:00:00.000001 is accepted by the
source (the check ignores microseconds) although it lies in no half-open
segment and is not equal to the exact end boundary 18:00:00.000000 of the
last segment. -/
theorem business_hours_microsecond_cex :
    is_within_business_hours ⟨⟨2024, 6, 3⟩, 18, 0, 0, 1, some (-300)⟩ = true ∧
      todMicroOfDay ⟨⟨2024, 6, 3⟩, 18, 0, 0, 1, some (-300)⟩ ≠ 64800000000 ∧
      ¬ ((28800000000 ≤ todMicroOfDay ⟨⟨2024, 6, 3⟩, 18, 0, 0, 1, some (-300)⟩ ∧
            todMicroOfDay ⟨⟨2024, 6, 3⟩, 18, 0, 0, 1, some (-300)⟩ < 43200000000) ∨
          (50400000000 ≤ todMicroOfDay ⟨⟨2024, 6, 3⟩, 18, 0, 0, 1, some (-300)⟩ ∧
            todMicroOfDay ⟨⟨2024, 6, 3⟩, 18, 0, 0, 1, some (-300)⟩ < 64800000000)) := by
  refine ⟨by decide, by decide, ?_⟩
  decide

/-- Bounds carried by every successful `fromisoformat` parse: the hour,
minute and second fields are in range (the date-only form yields zeros,
the timed form is guarded by the explicit range check). -/
theorem fromisoformat_bounds (v : String) (dt : PyDateTime)
    (h : fromisoformat v = some dt) :
    dt.hour ≤ 23 ∧ dt.minute ≤ 59 ∧ dt.second ≤ 59 := by
  unfold fromisoformat at h
  split at h
  · cases h
  · cases h
    exact ⟨by simp, by simp, by simp⟩
  · split at h
    · cases h
    · split at h
      · cases h
      · split_ifs at h with hb
        cases h
        simp only [Bool.and_eq_true, decide_eq_true_eq] at hb
        exact ⟨hb.1.1, hb.1.2, hb.2⟩

/-- Converting an aware datetime with bounded fields to its own zone is
the identity. -/
theorem astimezone_self (dt : PyDateTime) (o : Int) (hz : dt.tzoff = some o)
    (h1 : dt.hour ≤ 23) (h2 : dt.minute ≤ 59) (h3 : dt.second ≤ 59) :
    astimezone dt o = dt := by
  have htodN : dt.todSeconds < 86400 := by
    simp only [PyDateTime.todSeconds]; omega
  have htod0 : (0 : Int) ≤ (dt.todSeconds : Int) := Int.natCast_nonneg _
  have htod : (dt.todSeconds : Int) < 86400 := by exact_mod_cast htodN
  unfold astimezone
  rw [hz]
  simp only [Option.getD_some, sub_self, zero_mul, add_zero]
  rw [show ((dt.todSeconds : Int)).ediv 86400 = 0 from Int.ediv_eq_zero_of_lt htod0 htod,
    show ((dt.todSeconds : Int)).emod 86400 = (dt.todSeconds : Int) from
      Int.emod_eq_of_lt htod0 htod,
    Int.toNat_natCast]
  have hd : dt.date.addDaysInt 0 = dt.date := by
    simp [PyDate.addDaysInt, PyDate.addDays]
  rw [hd]
  have e1 : dt.todSeconds / 3600 = dt.hour := by
    simp only [PyDateTime.todSeconds]; omega
  have e2 : dt.todSeconds % 3600 / 60 = dt.minute := by
    simp only [PyDateTime.todSeconds]; omega
  have e3 : dt.todSeconds % 60 = dt.second := by
    simp only [PyDateTime.todSeconds]; omega
  rw [e1, e2, e3, ← hz]

/-- C10 (confirmed): the stored-timestamp parser is total and optional:
it yields `none` on the empty string and on every value the ISO parser
rejects; every successful result is aware in the configured zone; a naive
parse is assigned the configured zone with its wall clock unchanged; an
aware parse is converted to the configured zone. -/
theorem parse_iso_datetime_total_spec :
    parse_iso_datetime "" = none ∧
    (∀ s, fromisoformat s = none → parse_iso_datetime s = none) ∧
    (∀ s dt, parse_iso_datetime s = some dt → dt.tzoff = some tzOffsetMinutes) ∧
    (∀ s dt, fromisoformat s = some dt → dt.tzoff = none →
      parse_iso_datetime s = some { dt with tzoff := some tzOffsetMinutes }) ∧
    (∀ s dt o, fromisoformat s = some dt → dt.tzoff = some o →
      parse_iso_datetime s = some (astimezone dt tzOffsetMinutes)) := by
  have hempty : fromisoformat "" = none := by decide
  refine ⟨rfl, ?_, ?_, ?_, ?_⟩
  · intro s h
    unfold parse_iso_datetime
    split_ifs with he
    · rfl
    · rw [h]
  · intro s dt h
    unfold parse_iso_datetime at h
    split_ifs at h with he
    cases hf : fromisoformat s with
    | none => rw [hf] at h; cases h
    | some v =>
        rw [hf] at h
        simp only at h
        split_ifs at h with hv
        · cases h; rfl
        · cases h; rfl
  · intro s dt h hn
    have hs : s ≠ "" := by
      intro he
      rw [he, hempty] at h
      cases h
    obtain ⟨b1, b2, b3⟩ := fromisoformat_bounds s dt h
    unfold parse_iso_datetime
    rw [if_neg hs, h]
    simp only
    rw [if_pos hn]
    rw [astimezone_self { dt with tzoff := some tzOffsetMinutes } tzOffsetMinutes rfl b1 b2 b3]
  · intro s dt o h ho
    have hs : s ≠ "" := by
      intro he
      rw [he, hempty] at h
      cases h
    unfold parse_iso_datetime
    rw [if_neg hs, h]
    simp only
    rw [if_neg (by rw [ho]; exact fun hc => Option.noConfusion hc)]

/-- Witness for C10: a concrete naive timestamp is parsed and assigned the
configured zone with its wall clock unchanged. -/
theorem parse_iso_datetime_total_spec_witness :
    parse_iso_datetime "2024-06-03T09:30:00" =
      some ⟨⟨2024, 6, 3⟩, 9, 30, 0, 0, some tzOffsetMinutes⟩ :=
  parse_iso_datetime_total_spec.2.2.2.1 "2024-06-03T09:30:00"
    ⟨⟨2024, 6, 3⟩, 9, 30, 0, 0, none⟩ (by decide) rfl

/-- Membership in the model of `set.add`. -/
theorem setAdd_mem (l : List String) (x s : String) :
    s ∈ setAdd l x ↔ s ∈ l ∨ s = x := by
  unfold setAdd
  split_ifs with h
  · constructor
    · exact Or.inl
    · rintro (hs | rfl)
      · exact hs
      · exact h
  · simp [List.mem_append]

/-- Membership after one step of the `build_conflict_set` loop. -/
theorem bcsStep_mem (d : PyDate) (ig : Option String) (acc : List String)
    (r : Record) (s : String) :
    s ∈ bcsStep d ig acc r ↔
      s ∈ acc ∨ (r.status = "active" ∧ ignoreMatches ig r.id = false ∧ dualPathStamp d r s) := by
  unfold bcsStep
  split_ifs with h1 h2
  · simp only [iff_self_or]
    rintro ⟨hs, -, -⟩
    exact absurd hs h1
  · simp only [iff_self_or]
    rintro ⟨-, hig, -⟩
    rw [h2] at hig
    exact Bool.noConfusion hig
  · have h1' : r.status = "active" := not_not.mp h1
    have h2' : ignoreMatches ig r.id = false := by
      revert h2; cases ignoreMatches ig r.id <;> simp
    cases hp : parse_iso_datetime r.start_time_iso with
    | some dtv =>
        simp only [hp]
        split_ifs with hdate
        · rw [setAdd_mem]
          constructor
          · rintro (hs | rfl)
            · exact Or.inl hs
            · exact Or.inr ⟨h1', h2', Or.inl ⟨dtv, hp, hdate, rfl⟩⟩
          · rintro (hs | ⟨-, -, hdual⟩)
            · exact Or.inl hs
            · rcases hdual with ⟨dtv', hp', -, rfl⟩ | ⟨hnone, -⟩
              · rw [hp] at hp'
                cases hp'
                exact Or.inr rfl
              · rw [hp] at hnone
                exact Option.noConfusion hnone
        · simp only [iff_self_or]
          rintro ⟨-, -, hdual⟩
          rcases hdual with ⟨dtv', hp', hd', -⟩ | ⟨hnone, -⟩
          · rw [hp] at hp'
            cases hp'
            exact absurd hd' hdate
          · rw [hp] at hnone
            exact Option.noConfusion hnone
    | none =>
        simp only [hp]
        split_ifs with hlen
        · cases hf : (fromisoformat (pyTakeChars r.start_time_iso 10)) with
          | some pd =>
              simp only [hf, Option.map_some']
              split_ifs with hdate
              · rw [setAdd_mem]
                constructor
                · rintro (hs | rfl)
                  · exact Or.inl hs
                  · exact Or.inr ⟨h1', h2', Or.inr ⟨hp, hlen, ⟨pd, hf, hdate⟩, rfl⟩⟩
                · rintro (hs | ⟨-, -, hdual⟩)
                  · exact Or.inl hs
                  · rcases hdual with ⟨dtv', hp', -, -⟩ | ⟨-, -, ⟨pd', hf', hd'⟩, rfl⟩
                    · rw [hp] at hp'
                      exact Option.noConfusion hp'
                    · exact Or.inr rfl
              · simp only [iff_self_or]
                rintro ⟨-, -, hdual⟩
                rcases hdual with ⟨dtv', hp', -, -⟩ | ⟨-, -, ⟨pd', hf', hd'⟩, -⟩
                · rw [hp] at hp'
                  exact Option.noConfusion hp'
                · rw [hf] at hf'
                  cases hf'
                  exact absurd hd' hdate
          | none =>
              simp only [hf, Option.map_none']
              simp only [iff_self_or]
              rintro ⟨-, -, hdual⟩
              rcases hdual with ⟨dtv', hp', -, -⟩ | ⟨-, -, ⟨pd', hf', -⟩, -⟩
              · rw [hp] at hp'
                exact Option.noConfusion hp'
              · rw [hf] at hf'
                exact Option.noConfusion hf'
        · simp only [iff_self_or]
          rintro ⟨-, -, hdual⟩
          rcases hdual with ⟨dtv', hp', -, -⟩ | ⟨-, hlen', -, -⟩
          · rw [hp] at hp'
            exact Option.noConfusion hp'
          · exact absurd hlen' hlen

/-- Membership in the `build_conflict_set` fold, generalising the
accumulator. -/
theorem bcs_foldl_mem (d : PyDate) (ig : Option String) (s : String) :
    ∀ (l : List Record) (acc : List String),
      s ∈ l.foldl (bcsStep d ig) acc ↔
        s ∈ acc ∨ ∃ r ∈ l, r.status = "active" ∧ ignoreMatches ig r.id = false ∧
          dualPathStamp d r s := by
  intro l
  induction l with
  | nil => simp
  | cons a l ih =>
      intro acc
      rw [List.foldl_cons, ih, bcsStep_mem]
      constructor
      · rintro (⟨hs | hcond⟩ | ⟨r, hr, hc⟩)
        · exact Or.inl hs
        · exact Or.inr ⟨a, List.mem_cons_self a l, hcond⟩
        · exact Or.inr ⟨r, List.mem_cons_of_mem _ hr, hc⟩
      · rintro (hs | ⟨r, hr, hc⟩)
        · exact Or.inl (Or.inl hs)
        · rcases List.mem_cons.mp hr with rfl | hr'
          · exact Or.inl (Or.inr hc)
          · exact Or.inr ⟨r, hr', hc⟩

/-- C7 (corrected): a stamp belongs to the conflict set iff some active
row not excluded by a *non-empty* `ignoreId` contributes it through the
dual path: a parsed start whose date matches the target contributes its
minute-truncated rendering, and a row whose start fails to parse but
whose ten-character prefix parses to exactly the target date contributes
the reconstruction from the raw `HH:MM` substring — malformed rows
matching the date are never dropped.  As with `has_conflict`, an empty
`ignoreId` is falsy in the source and disables the exclusion. -/
theorem build_conflict_set_dual_path (existing : List Record) (d : PyDate)
    (ig : Option String) (s : String) :
    s ∈ build_conflict_set existing d ig ↔
      ∃ r ∈ existing, r.status = "active" ∧
        (∀ s', ig = some s' → s' ≠ "" → r.id ≠ s') ∧ dualPathStamp d r s := by
  unfold build_conflict_set
  rw [bcs_foldl_mem]
  simp only [List.not_mem_nil, false_or]
  constructor
  · rintro ⟨r, hr, hs, hig, hd⟩
    exact ⟨r, hr, hs, (ignoreMatches_eq_false_iff ig r.id).mp hig, hd⟩
  · rintro ⟨r, hr, hs, hig, hd⟩
    exact ⟨r, hr, hs, (ignoreMatches_eq_false_iff ig r.id).mpr hig, hd⟩

/-- Witness for C7: the malformed row (seconds field 77) still contributes
a reconstructed stamp through the fallback path. -/
theorem build_conflict_set_dual_path_witness :
    "2024-06-03T09:00" ∈ build_conflict_set [malformedRec] ⟨2024, 6, 3⟩ none :=
  (build_conflict_set_dual_path [malformedRec] ⟨2024, 6, 3⟩ none "2024-06-03T09:00").mpr
    ⟨malformedRec, List.mem_singleton_self malformedRec, rfl,
      fun s' hs' => Option.noConfusion hs',
      Or.inr ⟨by decide, by decide, ⟨⟨⟨2024, 6, 3⟩, 0, 0, 0, 0, none⟩, by decide, rfl⟩, by decide⟩⟩

/-- Counterexample for C7 as frozen: with `ignoreId` the empty string the
source still processes the active row whose id is empty (Python
truthiness), so its stamp lands in the set even though the claim's
description processes no record of this snapshot. -/
theorem build_conflict_set_empty_ignore_cex :
    (build_conflict_set [emptyIdRec] ⟨2024, 6, 3⟩ (some "")).length = 1 ∧
      emptyIdRec.status = "active" ∧ emptyIdRec.id = "" := by
  refine ⟨?_, rfl, rfl⟩
  decide

section Booking

variable (existing : List Record) (name email phone document : String)
  (birthdate : Option PyDate) (today : PyDate) (selectedSlot : Option PyDateTime)
  (now now2 : PyDateTime) (svcOk : Bool) (newId : String) (calResult : Option String)
  (appendOk : Bool) (gmailCfg : Bool) (smtpDirect : SmtpR) (smtpFallbackOk : Bool)

/-- Exhaustive shape of a booking submission: either some validation or
conflict guard fired and the result is a failure with an empty effect
trace, or every precondition of the commit phase holds. -/
theorem handle_booking_submit_cases :
    (∃ m, handle_booking_submit existing name email phone document birthdate today
        selectedSlot now now2 svcOk newId calResult appendOk gmailCfg smtpDirect
        smtpFallbackOk = ([], BookOutcome.failure m)) ∨
      (pyStrip name ≠ "" ∧ pyStrip email ≠ "" ∧ is_valid_email email = true ∧
        pyStrip phone ≠ "" ∧ is_valid_phone_co phone = true ∧ document ≠ "" ∧
        ∃ bd start_dt, birthdate = some bd ∧ selectedSlot = some start_dt ∧
          dateLt bd ⟨1910, 1, 1⟩ = false ∧ dateLt (today.subDays (7 * 365)) bd = false ∧
          pyLt start_dt now = false ∧ is_within_business_hours start_dt = true ∧
          has_conflict existing start_dt.isoformat none = false) := by
  by_cases h1 : pyStrip name = ""
  · exact Or.inl ⟨"El nombre es obligatorio.", by simp [handle_booking_submit, h1]⟩
  by_cases h2 : pyStrip email = ""
  · exact Or.inl ⟨"El email es obligatorio.", by simp [handle_booking_submit, h1, h2]⟩
  by_cases h3 : is_valid_email email = true
  case neg =>
    have h3' : is_valid_email email = false := by revert h3; cases is_valid_email email <;> simp
    exact Or.inl ⟨"Ingresa un email válido.", by simp [handle_booking_submit, h1, h2, h3']⟩
  by_cases h4 : pyStrip phone = ""
  · exact Or.inl ⟨"El teléfono es obligatorio.", by simp [handle_booking_submit, h1, h2, h3, h4]⟩
  by_cases h5 : is_valid_phone_co phone = true
  case neg =>
    have h5' : is_valid_phone_co phone = false := by
      revert h5; cases is_valid_phone_co phone <;> simp
    exact Or.inl ⟨"El teléfono debe iniciar en 3 y tener 10 dígitos (Colombia).",
      by simp [handle_booking_submit, h1, h2, h3, h4, h5']⟩
  by_cases h6 : document = ""
  · exact Or.inl ⟨"La cédula es obligatoria.",
      by simp [handle_booking_submit, h1, h2, h3, h4, h5, h6]⟩
  cases birthdate with
  | none =>
      exact Or.inl ⟨"La fecha de nacimiento es obligatoria.",
        by simp [handle_booking_submit, h1, h2, h3, h4, h5, h6]⟩
  | some bd =>
  by_cases h8 : dateLt bd ⟨1910, 1, 1⟩ = true
  · exact Or.inl ⟨"La fecha de nacimiento no puede ser anterior a 1910.",
      by simp [handle_booking_submit, h1, h2, h3, h4, h5, h6, h8]⟩
  have h8' : dateLt bd ⟨1910, 1, 1⟩ = false := by
    revert h8; cases dateLt bd ⟨1910, 1, 1⟩ <;> simp
  by_cases h9 : dateLt (today.subDays (7 * 365)) bd = true
  · exact Or.inl ⟨"Solo se permiten usuarios de 7 años o más.",
      by simp [handle_booking_submit, h1, h2, h3, h4, h5, h6, h8', h9]⟩
  have h9' : dateLt (today.subDays (7 * 365)) bd = false := by
    revert h9; cases dateLt (today.subDays (7 * 365)) bd <;> simp
  cases selectedSlot with
  | none =>
      exact Or.inl ⟨"No hay horarios disponibles para esta hora.",
        by simp [handle_booking_submit, h1, h2, h3, h4, h5, h6, h8', h9']⟩
  | some start_dt =>
  by_cases h11 : pyLt start_dt now = true
  · exact Or.inl ⟨"No puedes agendar en el pasado.",
      by simp [handle_booking_submit, h1, h2, h3, h4, h5, h6, h8', h9', h11]⟩
  have h11' : pyLt start_dt now = false := by
    revert h11; cases pyLt start_dt now <;> simp
  by_cases h12 : is_within_business_hours start_dt = true
  case neg =>
    have h12' : is_within_business_hours start_dt = false := by
      revert h12; cases is_within_business_hours start_dt <;> simp
    exact Or.inl ⟨"Fuera del horario de atención (8 am - 6 pm).",
      by simp [handle_booking_submit, h1, h2, h3, h4, h5, h6, h8', h9', h11', h12']⟩
  by_cases h13 : has_conflict existing start_dt.isoformat none = true
  · exact Or.inl ⟨"Ya existe una cita en ese horario.",
      by simp [handle_booking_submit, h1, h2, h3, h4, h5, h6, h8', h9', h11', h12, h13]⟩
  have h13' : has_conflict existing start_dt.isoformat none = false := by
    revert h13; cases has_conflict existing start_dt.isoformat none <;> simp
  exact Or.inr ⟨h1, h2, h3, h4, h5, h6, bd, start_dt, rfl, rfl, h8', h9', h11', h12, h13'⟩

/-- C4 (confirmed): a booking request that fails any validation
precondition or the conflict check produces no side effect at all — no
calendar call, no ledger call, no notification — and surfaces a failure;
in particular, with well-formed contact fields, a start strictly before
`now` (such as now minus one second) is rejected as past-dated with an
empty effect trace, before any external call. -/
theorem booking_validation_no_side_effects :
    ((pyStrip name = "" ∨ pyStrip email = "" ∨ is_valid_email email = false ∨
      pyStrip phone = "" ∨ is_valid_phone_co phone = false ∨ document = "" ∨
      birthdate = none ∨
      (∃ bd, birthdate = some bd ∧
        (dateLt bd ⟨1910, 1, 1⟩ = true ∨ dateLt (today.subDays (7 * 365)) bd = true)) ∨
      selectedSlot = none ∨
      (∃ start_dt, selectedSlot = some start_dt ∧
        (pyLt start_dt now = true ∨ is_within_business_hours start_dt = false ∨
          has_conflict existing start_dt.isoformat none = true))) →
      ∃ m, handle_booking_submit existing name email phone document birthdate today
          selectedSlot now now2 svcOk newId calResult appendOk gmailCfg smtpDirect
          smtpFallbackOk = ([], BookOutcome.failure m)) ∧
    (∀ start_dt bd, selectedSlot = some start_dt → pyLt start_dt now = true →
      pyStrip name ≠ "" → pyStrip email ≠ "" → is_valid_email email = true →
      pyStrip phone ≠ "" → is_valid_phone_co phone = true → document ≠ "" →
      birthdate = some bd → dateLt bd ⟨1910, 1, 1⟩ = false →
      dateLt (today.subDays (7 * 365)) bd = false →
      handle_booking_submit existing name email phone document birthdate today
          selectedSlot now now2 svcOk newId calResult appendOk gmailCfg smtpDirect
          smtpFallbackOk = ([], BookOutcome.failure "No puedes agendar en el pasado.")) := by
  constructor
  · intro hdisj
    rcases handle_booking_submit_cases existing name email phone document birthdate today
        selectedSlot now now2 svcOk newId calResult appendOk gmailCfg smtpDirect
        smtpFallbackOk with h | ⟨h1, h2, h3, h4, h5, h6, bd, start_dt, hbd, hslot,
          hb1, hb2, hpast, hbh, hconf⟩
    · exact h
    · exfalso
      rcases hdisj with hc | hc | hc | hc | hc | hc | hc | ⟨bd', hbd', hc⟩ | hc |
          ⟨sd', hsd', hc⟩
      · exact h1 hc
      · exact h2 hc
      · rw [h3] at hc; exact Bool.noConfusion hc
      · exact h4 hc
      · rw [h5] at hc; exact Bool.noConfusion hc
      · exact h6 hc
      · rw [hbd] at hc; exact Option.noConfusion hc
      · rw [hbd] at hbd'
        cases hbd'
        rcases hc with hc | hc
        · rw [hb1] at hc; exact Bool.noConfusion hc
        · rw [hb2] at hc; exact Bool.noConfusion hc
      · rw [hslot] at hc; exact Option.noConfusion hc
      · rw [hslot] at hsd'
        cases hsd'
        rcases hc with hc | hc | hc
        · rw [hpast] at hc; exact Bool.noConfusion hc
        · rw [hbh] at hc; exact Bool.noConfusion hc
        · rw [hconf] at hc; exact Bool.noConfusion hc
  · intro start_dt bd hslot hpast hn he hve hp hvp hd hbd hb1 hb2
    subst hslot
    subst hbd
    simp [handle_booking_submit, hn, he, hve, hp, hvp, hd, hb1, hb2, hpast]

/-- Witness for C4: a fully valid form whose start is one second before
`now` is rejected as past-dated with no effects. -/
theorem booking_validation_no_side_effects_witness :
    handle_booking_submit [] "Ana" "ana@mail.co" "3001234567" "1" (some ⟨1990, 1, 1⟩)
        exToday (some ⟨⟨2026, 10, 12⟩, 7, 59, 59, 0, some (-300)⟩) exNow exNow true "apt-1"
        (some "ev1") true true SmtpR.ok true =
      ([], BookOutcome.failure "No puedes agendar en el pasado.") :=
  (booking_validation_no_side_effects [] "Ana" "ana@mail.co" "3001234567" "1"
      (some ⟨1990, 1, 1⟩) exToday (some ⟨⟨2026, 10, 12⟩, 7, 59, 59, 0, some (-300)⟩)
      exNow exNow true "apt-1" (some "ev1") true true SmtpR.ok true).2
    ⟨⟨2026, 10, 12⟩, 7, 59, 59, 0, some (-300)⟩ ⟨1990, 1, 1⟩ rfl (by decide) (by decide)
    (by decide) (by decide) (by decide) (by decide) (by decide) rfl (by decide) (by decide)

end Booking

/-- Appending a row whose start collides with no active row of a
duplicate-free snapshot keeps the snapshot duplicate-free. -/
theorem noTwoActiveStart_append (l : List Record) (r : Record)
    (hl : noTwoActiveStart l = true)
    (hnew : ∀ x ∈ l, x.status = "active" → x.start_time_iso ≠ r.start_time_iso) :
    noTwoActiveStart (l ++ [r]) = true := by
  induction l with
  | nil => simp [noTwoActiveStart]
  | cons a l ih =>
      simp only [noTwoActiveStart, Bool.and_eq_true] at hl
      obtain ⟨ha, hrest⟩ := hl
      simp only [List.cons_append, noTwoActiveStart, Bool.and_eq_true]
      refine ⟨?_, ih hrest (fun x hx => hnew x (List.mem_cons_of_mem _ hx))⟩
      by_cases hact : a.status = "active"
      · have hne : r.start_time_iso ≠ a.start_time_iso :=
          fun he => hnew a (List.mem_cons_self a l) hact he.symm
        have hall : l.all
            (fun x => !(x.status == "active" && x.start_time_iso == a.start_time_iso)) = true := by
          rw [Bool.or_eq_true] at ha
          rcases ha with hna | hall
          · rw [hact] at hna
            simp at hna
          · exact hall
        rw [Bool.or_eq_true]
        refine Or.inr ?_
        simp only [List.append_eq, List.all_append]
        rw [Bool.and_eq_true]
        refine ⟨hall, ?_⟩
        simp [hne]
      · rw [Bool.or_eq_true]
        refine Or.inl ?_
        simp [hact]

section BookingInv

variable (existing : List Record) (name email phone document : String)
  (birthdate : Option PyDate) (today : PyDate) (selectedSlot : Option PyDateTime)
  (now now2 : PyDateTime) (svcOk : Bool) (newId : String) (calResult : Option String)
  (appendOk : Bool) (gmailCfg : Bool) (smtpDirect : SmtpR) (smtpFallbackOk : Bool)

/-- C1 (corrected): a successful booking preserves uniqueness of active
starts — *given* that the ledger snapshot itself satisfies the invariant.
The commit gate `has_conflict` guarantees no active row of the snapshot
holds the validated target, and the appended row carries exactly that
target, so applying the recorded effects leaves at most one active row
per start. -/
theorem booking_preserves_unique_active_start (effs : List Effect) (aid : String)
    (hinv : noTwoActiveStart existing = true)
    (hrun : handle_booking_submit existing name email phone document birthdate today
        selectedSlot now now2 svcOk newId calResult appendOk gmailCfg smtpDirect
        smtpFallbackOk = (effs, BookOutcome.success aid)) :
    noTwoActiveStart (applyEffects existing effs) = true := by
  rcases handle_booking_submit_cases existing name email phone document birthdate today
      selectedSlot now now2 svcOk newId calResult appendOk gmailCfg smtpDirect
      smtpFallbackOk with ⟨m, heq⟩ | ⟨h1, h2, h3, h4, h5, h6, bd, start_dt, hbd, hslot,
        hb1, hb2, hpast, hbh, hconf⟩
  · rw [heq] at hrun
    simp at hrun
  · subst hbd
    subst hslot
    by_cases hsvc : svcOk = true
    case neg =>
      have hsvc' : svcOk = false := by revert hsvc; cases svcOk <;> simp
      rw [show handle_booking_submit existing name email phone document (some bd) today
          (some start_dt) now now2 svcOk newId calResult appendOk gmailCfg smtpDirect
          smtpFallbackOk = ([], BookOutcome.failure "Error al agendar: servicios no disponibles")
        from by simp [handle_booking_submit, h1, h2, h3, h4, h5, h6, hb1, hb2, hpast,
          hbh, hconf, hsvc']] at hrun
      simp at hrun
    case pos =>
      cases calResult with
      | none =>
          rw [show handle_booking_submit existing name email phone document (some bd) today
              (some start_dt) now now2 svcOk newId none appendOk gmailCfg smtpDirect
              smtpFallbackOk = ([Effect.calendarCreate
                (if name ≠ "" then "Cita con " ++ name else "Cita") start_dt 30 email],
              BookOutcome.failure "Error al agendar: calendario")
            from by simp [handle_booking_submit, h1, h2, h3, h4, h5, h6, hb1, hb2, hpast,
              hbh, hconf, hsvc]] at hrun
          simp at hrun
      | some event_id =>
          by_cases happ : appendOk = true
          case neg =>
            have happ' : appendOk = false := by revert happ; cases appendOk <;> simp
            rw [show handle_booking_submit existing name email phone document (some bd) today
                (some start_dt) now now2 svcOk newId (some event_id) appendOk gmailCfg
                smtpDirect smtpFallbackOk = ([Effect.calendarCreate
                  (if name ≠ "" then "Cita con " ++ name else "Cita") start_dt 30 email,
                  Effect.ledgerAppend ⟨newId, name, email, phone, document, bd.isoformat,
                    start_dt.isoformat, format_local start_dt, "active", event_id,
                    now2.isoformat, ""⟩],
                BookOutcome.failure "Error al agendar: hoja de cálculo")
              from by simp [handle_booking_submit, h1, h2, h3, h4, h5, h6, hb1, hb2, hpast,
                hbh, hconf, hsvc, happ']] at hrun
            simp at hrun
          case pos =>
            by_cases hmail : send_email_runs gmailCfg email smtpDirect smtpFallbackOk = true
            case neg =>
              have hmail' : send_email_runs gmailCfg email smtpDirect smtpFallbackOk = false := by
                revert hmail; cases send_email_runs gmailCfg email smtpDirect smtpFallbackOk <;> simp
              rw [show handle_booking_submit existing name email phone document (some bd) today
                  (some start_dt) now now2 svcOk newId (some event_id) appendOk gmailCfg
                  smtpDirect smtpFallbackOk = ([Effect.calendarCreate
                    (if name ≠ "" then "Cita con " ++ name else "Cita") start_dt 30 email,
                    Effect.ledgerAppend ⟨newId, name, email, phone, document, bd.isoformat,
                      start_dt.isoformat, format_local start_dt, "active", event_id,
                      now2.isoformat, ""⟩,
                    Effect.emailSend email email_subject
                      (email_body_created name newId start_dt)],
                  BookOutcome.failure "Error al agendar: correo")
                from by simp [handle_booking_submit, h1, h2, h3, h4, h5, h6, hb1, hb2, hpast,
                  hbh, hconf, hsvc, happ, hmail']] at hrun
              simp at hrun
            case pos =>
              rw [show handle_booking_submit existing name email phone document (some bd) today
                  (some start_dt) now now2 svcOk newId (some event_id) appendOk gmailCfg
                  smtpDirect smtpFallbackOk = ([Effect.calendarCreate
                    (if name ≠ "" then "Cita con " ++ name else "Cita") start_dt 30 email,
                    Effect.ledgerAppend ⟨newId, name, email, phone, document, bd.isoformat,
                      start_dt.isoformat, format_local start_dt, "active", event_id,
                      now2.isoformat, ""⟩,
                    Effect.emailSend email email_subject
                      (email_body_created name newId start_dt)],
                  BookOutcome.success newId)
                from by simp [handle_booking_submit, h1, h2, h3, h4, h5, h6, hb1, hb2, hpast,
                  hbh, hconf, hsvc, happ, hmail]] at hrun
              have heff := congrArg Prod.fst hrun
              simp only at heff
              rw [← heff]
              simp only [applyEffects, List.foldl_cons, List.foldl_nil, applyEffect]
              refine noTwoActiveStart_append existing _ hinv ?_
              intro x hx hxs hxe
              have hc : has_conflict existing start_dt.isoformat none = true :=
                (has_conflict_eq_true_iff existing start_dt.isoformat none).mpr
                  ⟨x, hx, hxs, rfl, hxe⟩
              rw [hconf] at hc
              exact Bool.noConfusion hc

end BookingInv

/-- Witness for C1: booking a free 09:00 slot over a duplicate-free
snapshot holding one active 10:00 row yields a duplicate-free post
state. -/
theorem booking_preserves_unique_active_start_witness :
    noTwoActiveStart (applyEffects [dupRec "a"]
      (handle_booking_submit [dupRec "a"] "Ana" "ana@mail.co" "3001234567" "1"
        (some ⟨1990, 1, 1⟩) exToday (some exSlot) exNow exNow true "apt-1" (some "ev1")
        true true SmtpR.ok true).1) = true :=
  booking_preserves_unique_active_start [dupRec "a"] "Ana" "ana@mail.co" "3001234567" "1"
    (some ⟨1990, 1, 1⟩) exToday (some exSlot) exNow exNow true "apt-1" (some "ev1")
    true true SmtpR.ok true
    (handle_booking_submit [dupRec "a"] "Ana" "ana@mail.co" "3001234567" "1"
      (some ⟨1990, 1, 1⟩) exToday (some exSlot) exNow exNow true "apt-1" (some "ev1")
      true true SmtpR.ok true).1 "apt-1" (by decide) (by decide)

/-- Counterexample for C1 as frozen: over a snapshot that already holds
two active rows at the same start, a booking of a *different* free slot
is accepted, and the post state still contains the two colliding active
rows — the accepted booking does not make the post state duplicate-free. -/
theorem booking_duplicate_active_start_cex :
    (handle_booking_submit exDupLedger "Ana" "ana@mail.co" "3001234567" "1"
        (some ⟨1990, 1, 1⟩) exToday (some exSlot) exNow exNow true "apt-1" (some "ev1")
        true true SmtpR.ok true).2 = BookOutcome.success "apt-1" ∧
      noTwoActiveStart (applyEffects exDupLedger
        (handle_booking_submit exDupLedger "Ana" "ana@mail.co" "3001234567" "1"
          (some ⟨1990, 1, 1⟩) exToday (some exSlot) exNow exNow true "apt-1" (some "ev1")
          true true SmtpR.ok true).1) = false := by
  exact ⟨by decide, by decide⟩

/-- C3 (corrected): under passing preconditions and available services,
the commit phase runs its effects strictly in the order calendar-create,
ledger-append (an active row carrying the returned event reference),
notification; a calendar failure aborts with no ledger effect; and every
notification failure the notifier swallows leaves the outcome successful —
except that a direct-SSL EOF whose STARTTLS fallback also fails escapes
the notifier and turns the already-committed operation into a reported
failure. -/
theorem booking_commit_effect_order
    (existing : List Record) (name email phone document : String) (bd : PyDate)
    (today : PyDate) (start_dt : PyDateTime) (now now2 : PyDateTime) (newId : String)
    (calResult : Option String) (appendOk : Bool) (gmailCfg : Bool) (smtpDirect : SmtpR)
    (smtpFallbackOk : Bool)
    (h1 : pyStrip name ≠ "") (h2 : pyStrip email ≠ "") (h3 : is_valid_email email = true)
    (h4 : pyStrip phone ≠ "") (h5 : is_valid_phone_co phone = true) (h6 : document ≠ "")
    (hb1 : dateLt bd ⟨1910, 1, 1⟩ = false)
    (hb2 : dateLt (today.subDays (7 * 365)) bd = false)
    (hpast : pyLt start_dt now = false) (hbh : is_within_business_hours start_dt = true)
    (hconf : has_conflict existing start_dt.isoformat none = false) :
    (calResult = none →
      handle_booking_submit existing name email phone document (some bd) today
          (some start_dt) now now2 true newId calResult appendOk gmailCfg smtpDirect
          smtpFallbackOk =
        ([Effect.calendarCreate (if name ≠ "" then "Cita con " ++ name else "Cita")
            start_dt 30 email],
          BookOutcome.failure "Error al agendar: calendario")) ∧
    (∀ event_id, calResult = some event_id → appendOk = true →
      handle_booking_submit existing name email phone document (some bd) today
          (some start_dt) now now2 true newId calResult appendOk gmailCfg smtpDirect
          smtpFallbackOk =
        ([Effect.calendarCreate (if name ≠ "" then "Cita con " ++ name else "Cita")
            start_dt 30 email,
          Effect.ledgerAppend ⟨newId, name, email, phone, document, bd.isoformat,
            start_dt.isoformat, format_local start_dt, "active", event_id,
            now2.isoformat, ""⟩,
          Effect.emailSend email email_subject (email_body_created name newId start_dt)],
          if send_email_runs gmailCfg email smtpDirect smtpFallbackOk then
            BookOutcome.success newId
          else BookOutcome.failure "Error al agendar: correo")) := by
  constructor
  · rintro rfl
    simp [handle_booking_submit, h1, h2, h3, h4, h5, h6, hb1, hb2, hpast, hbh, hconf]
  · rintro event_id rfl rfl
    by_cases hm : send_email_runs gmailCfg email smtpDirect smtpFallbackOk = true
    · simp [handle_booking_submit, h1, h2, h3, h4, h5, h6, hb1, hb2, hpast, hbh, hconf, hm]
    · have hm' : send_email_runs gmailCfg email smtpDirect smtpFallbackOk = false := by
        revert hm; cases send_email_runs gmailCfg email smtpDirect smtpFallbackOk <;> simp
      simp [handle_booking_submit, h1, h2, h3, h4, h5, h6, hb1, hb2, hpast, hbh, hconf, hm']

/-- Witness for C3: a fully successful concrete booking reports success
after the three ordered effects. -/
theorem booking_commit_effect_order_witness :
    (handle_booking_submit [] "Ana" "ana@mail.co" "3001234567" "1" (some ⟨1990, 1, 1⟩)
        exToday (some exSlot) exNow exNow true "apt-1" (some "ev1") true true SmtpR.ok
        true).2 = BookOutcome.success "apt-1" := by
  have h := (booking_commit_effect_order [] "Ana" "ana@mail.co" "3001234567" "1"
      ⟨1990, 1, 1⟩ exToday exSlot exNow exNow "apt-1" (some "ev1") true true SmtpR.ok true
      (by decide) (by decide) (by decide) (by decide) (by decide) (by decide) (by decide)
      (by decide) (by decide) (by decide) (by decide)).2 "ev1" rfl rfl
  rw [h]
  decide

/-- Counterexample for C3 as frozen: when the direct SSL attempt fails
with an EOF error and the STARTTLS fallback fails too, the notification
exception escapes `send_email` and the whole booking reports failure —
after the calendar event, the ledger append and the notification attempt
(three recorded effects). -/
theorem booking_notification_failure_cex :
    (handle_booking_submit [] "Ana" "ana@mail.co" "3001234567" "1" (some ⟨1990, 1, 1⟩)
        exToday (some exSlot) exNow exNow true "apt-1" (some "ev1") true true SmtpR.eof
        false).2 = BookOutcome.failure "Error al agendar: correo" ∧
      (handle_booking_submit [] "Ana" "ana@mail.co" "3001234567" "1" (some ⟨1990, 1, 1⟩)
        exToday (some exSlot) exNow exNow true "apt-1" (some "ev1") true true SmtpR.eof
        false).1.length = 3 := by
  exact ⟨by decide, by decide⟩

/-- Characterization of the default-index selection loop: it returns the
offset of the first non-blocked entry (shifted by the running index), or
0 when every entry is blocked. -/
theorem defaultIndexLoop_spec (l : List DayChoice) : ∀ k : Nat,
    (∃ i, i < l.length ∧ defaultIndexLoop l k = k + i ∧
      (l.getD i dfltChoice).blocked = false ∧
      ∀ j, j < i → (l.getD j dfltChoice).blocked = true) ∨
    ((∀ c ∈ l, c.blocked = true) ∧ defaultIndexLoop l k = 0) := by
  induction l with
  | nil =>
      intro k
      exact Or.inr ⟨by simp, rfl⟩
  | cons c rest ih =>
      intro k
      by_cases hc : c.blocked = true
      · have hstep : defaultIndexLoop (c :: rest) k = defaultIndexLoop rest (k + 1) := by
          simp [defaultIndexLoop, hc]
        rcases ih (k + 1) with ⟨i, hi, heq, hbl, hprev⟩ | ⟨hall, heq⟩
        · refine Or.inl ⟨i + 1, by simpa using Nat.succ_lt_succ hi, ?_, ?_, ?_⟩
          · rw [hstep, heq]; omega
          · simpa using hbl
          · intro j hj
            cases j with
            | zero => simpa using hc
            | succ j' => simpa using hprev j' (by omega)
        · refine Or.inr ⟨?_, by rw [hstep, heq]⟩
          intro x hx
          rcases List.mem_cons.mp hx with rfl | hx'
          · exact hc
          · exact hall x hx'
      · have hc' : c.blocked = false := by revert hc; cases c.blocked <;> simp
        refine Or.inl ⟨0, by simp, ?_, by simpa using hc', ?_⟩
        · simp [defaultIndexLoop, hc']
        · intro j hj
          omega

/-- An in-range entry of the planner's list is the loop body at its
index. -/
theorem date_choice_getD (hs : PyDate → Bool) (start : PyDate) (existing : List Record)
    (days : Nat) (ig : Option String) (i : Nat) (h : i < days + 1) :
    (date_choice_list hs start existing days ig).1.getD i dfltChoice
      = mkDayChoice hs existing ig start i := by
  simp only [date_choice_list]
  rw [List.getD_eq_getElem?_getD]
  simp [List.getElem?_map, List.getElem?_range h]

/-- C6 (corrected): the planner classifies every day in the horizon with
`blocked = weekly-off OR holiday OR full`, the reason taking weekly-off
precedence over holiday over full; the returned default index addresses
the first non-blocked day — but when every day in the range is blocked it
stays 0 (the first index), not the horizon's last index. -/
theorem date_choice_list_spec (hs : PyDate → Bool) (start : PyDate) (existing : List Record)
    (days : Nat) (ig : Option String) :
    (date_choice_list hs start existing days ig).1.length = days + 1 ∧
    (∀ i, i < days + 1 →
      ((date_choice_list hs start existing days ig).1.getD i dfltChoice).date
          = start.addDays i ∧
      ((date_choice_list hs start existing days ig).1.getD i dfltChoice).blocked
          = ((start.addDays i).weekday == 6 || hs (start.addDays i) ||
              day_is_full existing (start.addDays i) ig) ∧
      ((date_choice_list hs start existing days ig).1.getD i dfltChoice).reason
          = (if (start.addDays i).weekday == 6 then "domingo"
             else if hs (start.addDays i) then "festivo"
             else if day_is_full existing (start.addDays i) ig then "agenda completa"
             else "")) ∧
    (((date_choice_list hs start existing days ig).2
          < (date_choice_list hs start existing days ig).1.length ∧
        ((date_choice_list hs start existing days ig).1.getD
          (date_choice_list hs start existing days ig).2 dfltChoice).blocked = false ∧
        ∀ j, j < (date_choice_list hs start existing days ig).2 →
          ((date_choice_list hs start existing days ig).1.getD j dfltChoice).blocked = true) ∨
      ((∀ c ∈ (date_choice_list hs start existing days ig).1, c.blocked = true) ∧
        (date_choice_list hs start existing days ig).2 = 0)) := by
  refine ⟨by simp [date_choice_list], ?_, ?_⟩
  · intro i hi
    rw [date_choice_getD hs start existing days ig i hi]
    exact ⟨rfl, rfl, rfl⟩
  · simp only [date_choice_list]
    rcases defaultIndexLoop_spec
        ((List.range (days + 1)).map (mkDayChoice hs existing ig start)) 0 with
      ⟨i, hi, heq, hbl, hprev⟩ | ⟨hall, heq⟩
    · refine Or.inl ⟨?_, ?_, ?_⟩
      · rw [heq]
        simpa using hi
      · rw [heq]
        simpa using hbl
      · intro j hj
        rw [heq] at hj
        exact hprev j (by omega)
    · exact Or.inr ⟨hall, heq⟩

/-- Witness for C6: on a Sunday that the holiday oracle also marks as a
holiday, the reason is `domingo` — weekly-off takes precedence. -/
theorem date_choice_list_spec_witness :
    ((date_choice_list (fun _ => true) ⟨2024, 6, 2⟩ [] 0 none).1.getD 0 dfltChoice).reason
      = "domingo" := by
  have h := ((date_choice_list_spec (fun _ => true) ⟨2024, 6, 2⟩ [] 0 none).2.1 0
    (by omega)).2.2
  rw [h]
  decide

/-- Counterexample for C6 as frozen: with every day of a two-day horizon
blocked (holiday oracle constantly true), the source returns default
index 0, not the horizon's last index 1. -/
theorem date_choice_default_index_cex :
    (date_choice_list (fun _ => true) ⟨2024, 6, 3⟩ [] 1 none).1.all
        (fun c => c.blocked) = true ∧
      (date_choice_list (fun _ => true) ⟨2024, 6, 3⟩ [] 1 none).2 = 0 ∧
      (date_choice_list (fun _ => true) ⟨2024, 6, 3⟩ [] 1 none).1.length = 2 := by
  refine ⟨by decide, by decide, by decide⟩

/-- `dateLt` is irreflexive. -/
theorem dateLt_self (d : PyDate) : dateLt d d = false := by
  simp [dateLt]

/-- Converting a business-hour slot to the zero offset shifts its wall
clock by the 300-minute offset difference, staying on the same date. -/
theorem astimezone_slot (d : PyDate) (t : Nat) (h : t < 1140) :
    astimezone (slotDt d (t / 60) (t % 60)) 0 =
      ⟨d, (60 * t + 18000) / 3600, (60 * t + 18000) % 3600 / 60, (60 * t + 18000) % 60, 0,
        some 0⟩ := by
  unfold astimezone slotDt PyDateTime.todSeconds
  simp only [Option.getD_some]
  rw [show (0 : Int) - tzOffsetMinutes = 300 from by norm_num [tzOffsetMinutes]]
  rw [show ((t / 60 * 3600 + t % 60 * 60 + 0 : Nat) : Int) + 300 * 60
      = ((60 * t + 18000 : Nat) : Int) from by push_cast; omega]
  have h0 : (0 : Int) ≤ ((60 * t + 18000 : Nat) : Int) := Int.natCast_nonneg _
  have h1 : ((60 * t + 18000 : Nat) : Int) < 86400 := by
    have hn : 60 * t + 18000 < 86400 := by omega
    exact_mod_cast hn
  rw [show (((60 * t + 18000 : Nat) : Int)).ediv 86400 = 0 from Int.ediv_eq_zero_of_lt h0 h1,
    show (((60 * t + 18000 : Nat) : Int)).emod 86400 = ((60 * t + 18000 : Nat) : Int) from
      Int.emod_eq_of_lt h0 h1, Int.toNat_natCast]
  rfl

/-- Comparing two same-day business-hour slots is comparing their
minutes-of-day. -/
theorem pyLt_slotDt (d : PyDate) (t1 t2 : Nat) (h1 : t1 < 1140) (h2 : t2 < 1140) :
    pyLt (slotDt d (t1 / 60) (t1 % 60)) (slotDt d (t2 / 60) (t2 % 60)) = decide (t1 < t2) := by
  rw [show pyLt (slotDt d (t1 / 60) (t1 % 60)) (slotDt d (t2 / 60) (t2 % 60))
      = wallLt (astimezone (slotDt d (t1 / 60) (t1 % 60)) 0)
          (astimezone (slotDt d (t2 / 60) (t2 % 60)) 0) from rfl]
  rw [astimezone_slot d t1 h1, astimezone_slot d t2 h2]
  simp only [wallLt]
  rw [dateLt_self]
  simp only [beq_self_eq_true, Bool.true_and, Bool.false_or]
  rcases Nat.lt_or_ge t1 t2 with hlt | hge
  · rw [decide_eq_true hlt]
    simp only [Bool.or_eq_true, Bool.and_eq_true, decide_eq_true_eq, beq_iff_eq]
    omega
  · rw [show decide (t1 < t2) = false from decide_eq_false (by omega)]
    rw [Bool.eq_false_iff]
    intro hcontra
    simp only [Bool.or_eq_true, Bool.and_eq_true, decide_eq_true_eq, beq_iff_eq] at hcontra
    omega

/-- Adding fifteen minutes to a business-hour slot stays on the same date
and advances the minutes-of-day. -/
theorem addSlotMinutes_slot (d : PyDate) (t : Nat) (h : t < 1425) :
    addSlotMinutes (slotDt d (t / 60) (t % 60)) 15 = slotDt d ((t + 15) / 60) ((t + 15) % 60) := by
  simp only [addSlotMinutes, slotDt]
  rw [show t / 60 * 60 + t % 60 + 15 = t + 15 from by omega]
  rw [if_pos (show t + 15 < 1440 from by omega)]

/-- The slot-generation loop on a single segment is the arithmetic
progression of its minutes-of-day. -/
theorem slotLoop_eq (d : PyDate) : ∀ (fuel t endT : Nat), endT ≤ 1125 → t < 1140 →
    endT - t ≤ 15 * fuel →
    slotLoop fuel (slotDt d (t / 60) (t % 60)) (slotDt d (endT / 60) (endT % 60))
      = (List.range ((endT - t + 14) / 15)).map
          (fun k => slotDt d ((t + 15 * k) / 60) ((t + 15 * k) % 60)) := by
  intro fuel
  induction fuel with
  | zero =>
      intro t endT hend ht hfuel
      rw [show (endT - t + 14) / 15 = 0 from by omega]
      simp [slotLoop]
  | succ fuel ih =>
      intro t endT hend ht hfuel
      rw [show slotLoop (fuel + 1) (slotDt d (t / 60) (t % 60)) (slotDt d (endT / 60) (endT % 60))
          = if pyLt (slotDt d (t / 60) (t % 60)) (slotDt d (endT / 60) (endT % 60)) then
              slotDt d (t / 60) (t % 60) ::
                slotLoop fuel (addSlotMinutes (slotDt d (t / 60) (t % 60)) SLOT_MINUTES)
                  (slotDt d (endT / 60) (endT % 60))
            else [] from rfl]
      rw [pyLt_slotDt d t endT ht (by omega)]
      by_cases hlt : t < endT
      · rw [if_pos (by simpa using hlt)]
        rw [show SLOT_MINUTES = 15 from rfl]
        rw [addSlotMinutes_slot d t (by omega)]
        rw [ih (t + 15) endT hend (by omega) (by omega)]
        rw [show (endT - t + 14) / 15 = (endT - (t + 15) + 14) / 15 + 1 from by omega]
        rw [List.range_succ_eq_map]
        simp only [List.map_cons, List.map_map]
        congr 1
        apply List.map_congr_left
        intro k _
        simp only [Function.comp, Nat.succ_eq_add_one]
        rw [show t + 15 * (k + 1) = t + 15 + 15 * k from by ring]
      · rw [if_neg (by simpa using hlt)]
        rw [show (endT - t + 14) / 15 = 0 from by omega]
        simp

/-- C8 (confirmed): the slot grid is the concatenation, in segment order,
of the arithmetic progressions `start, start+15, …` of the 08:00-12:00
and 14:00-18:00 segments, each stopping strictly before its segment end;
the sequence is non-decreasing, every slot lies on the requested date
aligned to the 15-minute granularity with zero seconds and microseconds
in the configured zone, and the output is a pure function of the date
(no hidden state). -/
theorem generate_slots_grid_spec (d : PyDate) :
    generate_slots_for_date d
        = specSegmentSlots d 480 720 15 ++ specSegmentSlots d 840 1080 15 ∧
    List.Pairwise (fun a b => pyLe a b = true) (generate_slots_for_date d) ∧
    (∀ s ∈ generate_slots_for_date d, s.date = d ∧ s.minute % 15 = 0 ∧ s.second = 0 ∧
      s.microsecond = 0 ∧ s.tzoff = some tzOffsetMinutes) ∧
    (∀ d2, d2 = d → generate_slots_for_date d2 = generate_slots_for_date d) := by
  have hm : generate_slots_for_date d
      = (List.range 16).map (fun k => slotDt d ((480 + 15 * k) / 60) ((480 + 15 * k) % 60))
        ++ (List.range 16).map (fun k => slotDt d ((840 + 15 * k) / 60) ((840 + 15 * k) % 60)) := by
    unfold generate_slots_for_date
    rw [show slotDt d 8 0 = slotDt d (480 / 60) (480 % 60) from by norm_num,
      show slotDt d 12 0 = slotDt d (720 / 60) (720 % 60) from by norm_num,
      show slotDt d 14 0 = slotDt d (840 / 60) (840 % 60) from by norm_num,
      show slotDt d 18 0 = slotDt d (1080 / 60) (1080 % 60) from by norm_num]
    rw [slotLoop_eq d 1440 480 720 (by omega) (by omega) (by omega),
      slotLoop_eq d 1440 840 1080 (by omega) (by omega) (by omega)]
  refine ⟨?_, ?_, ?_, ?_⟩
  · rw [hm]
    unfold specSegmentSlots
    norm_num
  · rw [hm]
    rw [show (List.range 16).map (fun k => slotDt d ((480 + 15 * k) / 60) ((480 + 15 * k) % 60))
          ++ (List.range 16).map (fun k => slotDt d ((840 + 15 * k) / 60) ((840 + 15 * k) % 60))
        = (((List.range 16).map (fun k => 480 + 15 * k)
            ++ (List.range 16).map (fun k => 840 + 15 * k)).map
              (fun t => slotDt d (t / 60) (t % 60))) from by
      simp only [List.map_append, List.map_map]
      rfl]
    rw [List.pairwise_map]
    have hts : List.Pairwise (fun a b : Nat => a ≤ b ∧ a < 1140 ∧ b < 1140)
        ((List.range 16).map (fun k => 480 + 15 * k)
          ++ (List.range 16).map (fun k => 840 + 15 * k)) := by decide
    refine hts.imp ?_
    rintro a b ⟨hab, ha, hb⟩
    unfold pyLe
    rw [pyLt_slotDt d b a hb ha]
    simp [show ¬ (b < a) from by omega]
  · rw [hm]
    intro s hs
    simp only [List.mem_append, List.mem_map, List.mem_range] at hs
    rcases hs with ⟨k, hk, rfl⟩ | ⟨k, hk, rfl⟩
    · exact ⟨rfl, by simp only [slotDt]; omega, rfl, rfl, rfl⟩
    · exact ⟨rfl, by simp only [slotDt]; omega, rfl, rfl, rfl⟩
  · intro d2 h
    rw [h]

/-- Witness for C8: the first morning slot lies on the requested date,
aligned and zeroed, in the configured zone. -/
theorem generate_slots_grid_spec_witness :
    (slotDt ⟨2024, 6, 3⟩ 8 0).date = ⟨2024, 6, 3⟩ ∧
      (slotDt ⟨2024, 6, 3⟩ 8 0).minute % 15 = 0 ∧ (slotDt ⟨2024, 6, 3⟩ 8 0).second = 0 ∧
      (slotDt ⟨2024, 6, 3⟩ 8 0).microsecond = 0 ∧
      (slotDt ⟨2024, 6, 3⟩ 8 0).tzoff = some tzOffsetMinutes :=
  (generate_slots_grid_spec ⟨2024, 6, 3⟩).2.2.1 (slotDt ⟨2024, 6, 3⟩ 8 0) (by decide)
